import Mathlib

/-!
Shallow embedding of `src/backend/app/main.py` (rental_calculator).

The program keeps a pandas DataFrame of rental listings, cleaned once at
startup (`load_data`), plus two derived indexes (`all_property_types`,
`location_tree`).  Two endpoints read it: `get_form_options` and
`search_rentals`.

Modelling conventions:
* A CSV cell that pandas reads as NaN is `Option.none`; `Rent Price` is
  modelled after `pd.to_numeric(..., errors='coerce')`, so a non-numeric
  cell is also `none`.
* Prices, sizes and coordinates are `ℚ` (Python floats, no rounding in
  the program's arithmetic paths that matter here).
* Python's `int(x)` truncates toward zero: `pyInt`.
* `pd.Series.median` sorts and takes the middle element (odd count) or
  the mean of the two central elements (even count): `medianRat`.
* `pd.Series.mode` returns the most frequent values in ascending order:
  `pdMode` returns the first of them.
* `df.sample(n=2000)` and `pd.to_datetime` are environment parameters
  (`Env.sample`, `Env.parseDay`): the first is random, the second is a
  fixed pure library function whose internals the claims never inspect.
-/

/-- Python `int(q)` for a float `q`: truncation toward zero. -/
def pyInt (q : ℚ) : ℤ := q.num.tdiv q.den

/-- `str.strip()`: drop leading and trailing whitespace.  Written by
structural recursion over the character list so that it evaluates inside
the kernel (core `String.trim` is well-founded recursion over byte
positions and does not reduce). -/
def strTrim (s : String) : String :=
  ⟨((s.data.dropWhile Char.isWhitespace).reverse.dropWhile Char.isWhitespace).reverse⟩

/-- `astype(str).str.strip()` applied to one cell: pandas stringifies a
missing value (NaN) as the string `"nan"`, then whitespace is stripped. -/
def cleanStr (o : Option String) : String :=
  match o with
  | some s => strTrim s
  | none => "nan"

/-- Minimum of a price series (`Series.min`); 0 on the empty list, which
the program never hits on this path. -/
def listMin : List ℚ → ℚ
  | [] => 0
  | x :: xs => xs.foldl min x

/-- Maximum of a price series (`Series.max`); 0 on the empty list. -/
def listMax : List ℚ → ℚ
  | [] => 0
  | x :: xs => xs.foldl max x

/-- `Series.mean`: sum divided by length. -/
def listMean (l : List ℚ) : ℚ := l.sum / (l.length : ℚ)

/-- `Series.median` on a series with no missing values: sort ascending,
take the middle element if the count is odd, else the average of the two
central elements. -/
def medianRat (l : List ℚ) : ℚ :=
  let s := List.insertionSort (fun a b => a ≤ b) l
  if s.length % 2 = 1 then s.getD (s.length / 2) 0
  else (s.getD (s.length / 2 - 1) 0 + s.getD (s.length / 2) 0) / 2

/-- `sorted(xs.unique().tolist())`: distinct values (first occurrence kept,
as pandas `unique` does), then sorted ascending. -/
def sortDedupStr (l : List String) : List String :=
  List.insertionSort (fun a b => a ≤ b) l.dedup

/-- `Series.mode()[0]` when the mode series is non-empty: pandas `mode`
returns the most frequent non-missing values sorted ascending, so the
first entry is the smallest among the tied most-frequent values. -/
def pdMode {α : Type} [LinearOrder α] [DecidableEq α]
    [DecidableRel (fun a b : α => a ≤ b)] (l : List α) : Option α :=
  let sortedVals := List.insertionSort (fun a b : α => a ≤ b) l.dedup
  let maxCount := (sortedVals.map (fun v => l.count v)).foldr max 0
  (sortedVals.filter (fun v => l.count v == maxCount)).head?

/-- One raw CSV row, after `pd.read_csv` and the `to_numeric` coercion of
`Rent Price`: every cell may be missing (NaN). -/
structure RawRecord where
  state : Option String
  district : Option String
  standardType : Option String
  rentPrice : Option ℚ
  furnishingType : Option String
  propertySize : Option ℚ
  bedroomCount : Option ℚ
  bathroomCount : Option ℚ
  extractDate : Option String
  latitude : Option ℚ
  longitude : Option ℚ
deriving DecidableEq, Repr

/-- One row of the cleaned DataFrame: the dropna step only removes rows
whose `Rent Price` is missing (the three string columns were already
stringified by `astype(str)` and therefore hold no NaN), so the string
fields are plain strings and the price is present. -/
structure Listing where
  state : String
  district : String
  standardType : String
  rentPrice : ℚ
  furnishingType : Option String
  propertySize : Option ℚ
  bedroomCount : Option ℚ
  bathroomCount : Option ℚ
  extractDate : Option String
  latitude : Option ℚ
  longitude : Option ℚ
deriving DecidableEq, Repr

/-- Which optional columns exist in the CSV at all (`'X' in df.columns`).
The four required columns and Latitude/Longitude are always present in
the dataset the program loads. -/
structure ColumnFlags where
  furnishing : Bool
  size : Bool
  bedroom : Bool
  bathroom : Bool
  extractDate : Bool
deriving DecidableEq, Repr

/-- The cleaning step of `load_data` (lines 32-43): coerce `Rent Price`
to numeric, stringify and strip the three string columns, then drop rows
with a missing value among the four required columns - which, after
`astype(str)`, can only be a missing `Rent Price`. -/
def cleanRecords (raw : List RawRecord) : List Listing :=
  raw.filterMap (fun r =>
    match r.rentPrice with
    | some p => some
        { state := cleanStr r.state
          district := cleanStr r.district
          standardType := cleanStr r.standardType
          rentPrice := p
          furnishingType := r.furnishingType
          propertySize := r.propertySize
          bedroomCount := r.bedroomCount
          bathroomCount := r.bathroomCount
          extractDate := r.extractDate
          latitude := r.latitude
          longitude := r.longitude }
    | none => none)

/-- The sorted distinct `Standard Type` values over the cleaned rows
(line 47). -/
def allPropertyTypesOf (records : List Listing) : List String :=
  sortDedupStr (records.map (·.standardType))

/-- The distinct property types observed for one `(state, district)`
group, sorted (line 56). -/
def treeTypes (records : List Listing) (s d : String) : List String :=
  sortDedupStr ((records.filter (fun r => r.state == s && r.district == d)).map
    (·.standardType))

/-- The location tree (lines 50-56), flattened: one entry per
`(state, district)` pair that occurs in the data, carrying the sorted
distinct property types of that pair.  `groupby` iterates the keys in
sorted order; the dict the program builds is order-insensitive, so the
entries are listed here in first-appearance order of the pairs. -/
def locationTreeOf (records : List Listing) : List (String × String × List String) :=
  ((records.map (fun r => (r.state, r.district))).dedup).map
    (fun p => (p.1, p.2, treeTypes records p.1 p.2))

/-- The process-wide state built once by `load_data`: the cleaned frame
and the two derived indexes, plus the column-presence facts of the CSV. -/
structure Snapshot where
  records : List Listing
  allPropertyTypes : List String
  locationTree : List (String × String × List String)
  cols : ColumnFlags
deriving DecidableEq, Repr

/-- `load_data` (lines 23-58): clean the raw rows and derive the two
indexes. -/
def loadData (cols : ColumnFlags) (raw : List RawRecord) : Snapshot :=
  let records := cleanRecords raw
  { records := records
    allPropertyTypes := allPropertyTypesOf records
    locationTree := locationTreeOf records
    cols := cols }

/-- `get_form_options` (lines 60-65): a pure read of the two indexes. -/
def getFormOptions (st : Snapshot) : List String × List (String × String × List String) :=
  (st.allPropertyTypes, st.locationTree)

/-- The library functions the search endpoint calls whose output is not
determined by this file's data model: `DataFrame.sample(n)` (random) and
the composite `pd.to_datetime(..., errors='coerce')` + `.dt.to_period('D')`
+ `astype(str)` (a fixed pure date-normalisation returning `none` on an
unparseable cell). -/
structure Env where
  parseDay : String → Option String
  sample : List Listing → Nat → List Listing

/-- The base filter of `search_rentals` (lines 73-78): exact match on the
three cleaned columns. -/
def filterResults (st : Snapshot) (state district houseType : String) : List Listing :=
  st.records.filter (fun r =>
    r.state == state && r.district == district && r.standardType == houseType)

/-- `int(all_results['Rent Price'].median())` (line 84). -/
def medianRentOf (l : List Listing) : ℤ := pyInt (medianRat (l.map (·.rentPrice)))

/-- One entry of the comparison list (lines 110-114). -/
structure CompEntry where
  type : String
  medianRent : ℤ
  diff : ℤ
deriving DecidableEq, Repr

/-- The district-wide re-filter of the comparison step (lines 102-103):
same state and district, any property type. -/
def districtFilter (records : List Listing) (state district : String) : List Listing :=
  records.filter (fun r => r.state == state && r.district == district)

/-- `district_df.groupby('Standard Type')['Rent Price'].median()` for one
group, truncated by `int` at line 108. -/
def typeMedian (district_df : List Listing) (t : String) : ℤ :=
  pyInt (medianRat ((district_df.filter (fun r => r.standardType == t)).map (·.rentPrice)))

/-- The comparison logic (lines 101-115): re-filter by (state, district)
only, take the per-type medians (groupby yields the distinct types in
sorted order), skip the queried type, then sort by `medianRent`. -/
def comparisonList (records : List Listing) (state district houseType : String)
    (median_rent : ℤ) : List CompEntry :=
  let district_df := districtFilter records state district
  let types := sortDedupStr (district_df.map (·.standardType))
  let entries := types.filterMap (fun t =>
    if t == houseType then none
    else some { type := t, medianRent := typeMedian district_df t,
                diff := typeMedian district_df t - median_rent })
  List.insertionSort (fun a b => a.medianRent ≤ b.medianRent) entries

/-- The features block (lines 87-99). -/
def featuresOf (cols : ColumnFlags) (l : List Listing) : List String :=
  (if cols.furnishing then
    match pdMode (l.filterMap (·.furnishingType)) with
    | some m => [m]
    | none => []
  else []) ++
  (if cols.size then
    let sizes := l.filterMap (·.propertySize)
    if sizes.isEmpty then []
    else
      let ms := pyInt (medianRat sizes)
      [s!"{ms} sqft"]
  else []) ++
  (if cols.bedroom then
    match pdMode (l.filterMap (·.bedroomCount)) with
    | some m =>
      let mb := pyInt m
      [s!"{mb} Beds"]
    | none => []
  else []) ++
  (if cols.bathroom then
    match pdMode (l.filterMap (·.bathroomCount)) with
    | some m =>
      let mb := pyInt m
      [s!"{mb} Baths"]
    | none => []
  else [])

/-- One entry of the trend series (line 126). -/
structure TrendEntry where
  name : String
  price : ℤ
deriving DecidableEq, Repr

/-- The trend block (lines 118-126): parse each date, drop rows whose
date is missing or unparseable, group by day (groupby yields the
distinct day labels in sorted order), take the per-day median. -/
def trendsOf (parseDay : String → Option String) (cols : ColumnFlags)
    (l : List Listing) : List TrendEntry :=
  if cols.extractDate then
    let parsed := l.filterMap (fun r =>
      (r.extractDate.bind parseDay).map (fun d => (d, r.rentPrice)))
    let days := List.insertionSort (fun a b => a ≤ b) (parsed.map (·.1)).dedup
    days.map (fun d =>
      { name := d
        price := pyInt (medianRat ((parsed.filter (fun p => p.1 == d)).map (·.2))) })
  else []

/-- One entry of the distribution histogram (line 132). -/
structure DistEntry where
  range : String
  count : Nat
deriving DecidableEq, Repr

/-- `range(0, stop, 500)` as a list of integers. -/
def binStarts (stop : ℤ) : List ℤ :=
  (List.range ((stop.toNat + 499) / 500)).map (fun k => 500 * (k : ℤ))

/-- The histogram block (lines 128-132): bin edges `range(0, int(max)+500,
500)`, half-open bins `[edge, nextEdge)` (`right=False`), a value equal to
or above the last edge falls in no bin, and only non-zero bins are kept,
in ascending bin order. -/
def distributionOf (prices : List ℚ) : List DistEntry :=
  let edges := binStarts (pyInt (listMax prices) + 500)
  let intervals := edges.zip (edges.drop 1)
  (intervals.map (fun e =>
    let lo := e.1
    let hi := e.1 + 500
    { range := s!"{lo}-{hi}"
      count := (prices.filter (fun p =>
        decide ((e.1 : ℚ) ≤ p) && decide (p < (e.2 : ℚ)))).length })).filter
    (fun d => d.count > 0)

/-- `all_results.dropna(subset=['Latitude', 'Longitude'])` (line 135). -/
def mapResultsOf (l : List Listing) : List Listing :=
  l.filter (fun r => r.latitude.isSome && r.longitude.isSome)

/-- Lines 149-150: subsample only when the coordinate-bearing subset
exceeds 2000 rows. -/
def samplePoints (sample : List Listing → Nat → List Listing)
    (m : List Listing) : List Listing :=
  if 2000 < m.length then sample m 2000 else m

/-- The full response record of `search_rentals` when `found` is true
(lines 155-169); the not-found outcome is `Option.none` in `searchRentals`. -/
structure SearchResponse where
  location : String
  medianRent : ℤ
  suitableIncome : ℤ
  coordinates : ℚ × ℚ
  points : List (ℚ × ℚ × ℚ)
  mapMin : ℤ
  mapMax : ℤ
  commonFeatures : List String
  count : Nat
  comparison : List CompEntry
  trends : List TrendEntry
  distribution : List DistEntry
deriving DecidableEq, Repr

/-- The body of `search_rentals` past the emptiness guard (lines 83-169):
every field of the response, computed from the filtered rows and the
shared snapshot. -/
def buildResponse (env : Env) (st : Snapshot)
    (state district houseType : String) : SearchResponse :=
  let all_results := filterResults st state district houseType
  let median_rent := medianRentOf all_results
  let map_results := mapResultsOf all_results
  { location := s!"{district}, {state}"
    medianRent := median_rent
    suitableIncome := median_rent * 3
    coordinates :=
      if map_results.isEmpty then (3.1319, 101.6841)
      else (listMean (map_results.map (fun r => r.latitude.getD 0)),
            listMean (map_results.map (fun r => r.longitude.getD 0)))
    points :=
      if map_results.isEmpty then []
      else (samplePoints env.sample map_results).map
        (fun r => (r.latitude.getD 0, r.longitude.getD 0, r.rentPrice))
    mapMin :=
      if map_results.isEmpty then 0
      else pyInt (listMin (map_results.map (·.rentPrice)))
    mapMax :=
      if map_results.isEmpty then 0
      else pyInt (listMax (map_results.map (·.rentPrice)))
    commonFeatures := featuresOf st.cols all_results
    count := all_results.length
    comparison := comparisonList st.records state district houseType median_rent
    trends := trendsOf env.parseDay st.cols all_results
    distribution := distributionOf (all_results.map (·.rentPrice)) }

/-- `search_rentals` (lines 67-169) after startup: `none` models the
`{"found": False}` early return, `some` the full response. -/
def searchRentals (env : Env) (st : Snapshot)
    (state district houseType : String) : Option SearchResponse :=
  if (filterResults st state district houseType).isEmpty then none
  else some (buildResponse env st state district houseType)

/-- `search_rentals` viewed as a state transformer over the process-wide
globals: the Python function declares no `global` binding and every
pandas operation it performs either returns a fresh frame (`df[mask]`,
`groupby`, `sample`, `dropna` without `inplace`) or mutates a local
`.copy()` (the trend frame), so the globals after the call are the
globals before it. -/
def searchStateful (env : Env) (st : Snapshot)
    (state district houseType : String) : Snapshot × Option SearchResponse :=
  (st, searchRentals env st state district houseType)

/-! ### Ordering instances for the comparison sort -/

instance : IsTotal CompEntry (fun a b : CompEntry => a.medianRent ≤ b.medianRent) :=
  ⟨fun a b => le_total a.medianRent b.medianRent⟩

instance : IsTrans CompEntry (fun a b : CompEntry => a.medianRent ≤ b.medianRent) :=
  ⟨fun _ _ _ h1 h2 => le_trans h1 h2⟩

/-! ### Concrete fixtures used to exercise the definitions -/

/-- A raw row with the four analytic cells and the two coordinate cells
set, all other optional cells missing. -/
def rawL (s d t : Option String) (p : Option ℚ) (la lo : Option ℚ) : RawRecord :=
  { state := s, district := d, standardType := t, rentPrice := p,
    furnishingType := none, propertySize := none, bedroomCount := none,
    bathroomCount := none, extractDate := none, latitude := la, longitude := lo }

/-- A CSV carrying none of the optional columns. -/
def colsNone : ColumnFlags := ⟨false, false, false, false, false⟩

/-- A deterministic stand-in for `DataFrame.sample`: the first `n` rows. -/
def envTake : Env := ⟨fun _ => none, fun xs n => xs.take n⟩

/-- A second deterministic stand-in for `DataFrame.sample`: the first `n`
rows of the reversed frame. -/
def envRev : Env := ⟨fun _ => none, fun xs n => xs.reverse.take n⟩

/-- The three-record scenario of the specification: two condos at 1500 and
1700 and one studio at 1200, all in (KL, Ampang). -/
def snapKL : Snapshot := loadData colsNone
  [rawL (some "KL") (some "Ampang") (some "Condo") (some 1500) none none,
   rawL (some "KL") (some "Ampang") (some "Condo") (some 1700) none none,
   rawL (some "KL") (some "Ampang") (some "Studio") (some 1200) none none]

/-- A snapshot whose single filtered record is priced exactly 500: the
maximum price sits on the last bin edge. -/
def snapBin : Snapshot := loadData colsNone
  [rawL (some "KL") (some "A") (some "Condo") (some 500) none none]

/-- The rational 5/2, written as a normalised pair so that it evaluates
inside the kernel. -/
def q52 : ℚ := ⟨5, 2, by decide, by decide⟩

/-- A snapshot whose single record has the fractional price 5/2 and
coordinates. -/
def snapFrac : Snapshot := loadData colsNone
  [rawL (some "KL") (some "A") (some "Condo") (some q52) (some 3) (some 101)]

/-- A snapshot with a single geocoded record at an integer price. -/
def snapGeoOne : Snapshot := loadData colsNone
  [rawL (some "KL") (some "Ampang") (some "Condo") (some 1500) (some 3) (some 101)]

/-- A snapshot with three geocoded records and one record without
coordinates, all in (KL, Ampang, Condo). -/
def snapGeo : Snapshot := loadData colsNone
  [rawL (some "KL") (some "Ampang") (some "Condo") (some 1500) (some 3) (some 101),
   rawL (some "KL") (some "Ampang") (some "Condo") (some 1700) (some 4) (some 102),
   rawL (some "KL") (some "Ampang") (some "Condo") (some 1600) (some 5) (some 103),
   rawL (some "KL") (some "Ampang") (some "Condo") (some 1400) none none]

/-! ### Basic lemmas about the arithmetic and list helpers -/

theorem pyInt_intCast (k : ℤ) : pyInt (k : ℚ) = k := by
  unfold pyInt
  rw [Rat.intCast_num, Rat.intCast_den]
  exact Int.tdiv_one k

theorem foldl_min_le (xs : List ℚ) (x : ℚ) :
    xs.foldl min x ≤ x ∧ ∀ a ∈ xs, xs.foldl min x ≤ a := by
  induction xs generalizing x with
  | nil => simp
  | cons y ys ih =>
    have h := ih (min x y)
    refine ⟨le_trans h.1 (min_le_left x y), ?_⟩
    intro a ha
    rcases List.mem_cons.mp ha with rfl | ha2
    · exact le_trans h.1 (min_le_right x a)
    · exact h.2 a ha2

theorem foldl_min_mem (xs : List ℚ) (x : ℚ) :
    xs.foldl min x = x ∨ xs.foldl min x ∈ xs := by
  induction xs generalizing x with
  | nil => simp
  | cons y ys ih =>
    rcases ih (min x y) with h | h
    · rcases min_choice x y with hc | hc
      · left
        rw [List.foldl_cons, h, hc]
      · right
        rw [List.foldl_cons, h, hc]
        exact List.mem_cons_self y ys
    · right
      exact List.mem_cons_of_mem y h

theorem le_foldl_max (xs : List ℚ) (x : ℚ) :
    x ≤ xs.foldl max x ∧ ∀ a ∈ xs, a ≤ xs.foldl max x := by
  induction xs generalizing x with
  | nil => simp
  | cons y ys ih =>
    have h := ih (max x y)
    refine ⟨le_trans (le_max_left x y) h.1, ?_⟩
    intro a ha
    rcases List.mem_cons.mp ha with rfl | ha2
    · exact le_trans (le_max_right x a) h.1
    · exact h.2 a ha2

theorem foldl_max_mem (xs : List ℚ) (x : ℚ) :
    xs.foldl max x = x ∨ xs.foldl max x ∈ xs := by
  induction xs generalizing x with
  | nil => simp
  | cons y ys ih =>
    rcases ih (max x y) with h | h
    · rcases max_choice x y with hc | hc
      · left
        rw [List.foldl_cons, h, hc]
      · right
        rw [List.foldl_cons, h, hc]
        exact List.mem_cons_self y ys
    · right
      exact List.mem_cons_of_mem y h

theorem listMin_le {l : List ℚ} {a : ℚ} (ha : a ∈ l) : listMin l ≤ a := by
  cases l with
  | nil => cases ha
  | cons x xs =>
    rcases List.mem_cons.mp ha with rfl | ha2
    · exact (foldl_min_le xs a).1
    · exact (foldl_min_le xs x).2 a ha2

theorem listMin_mem {l : List ℚ} (h : l ≠ []) : listMin l ∈ l := by
  cases l with
  | nil => exact absurd rfl h
  | cons x xs =>
    rcases foldl_min_mem xs x with h2 | h2
    · rw [listMin, h2]
      exact List.mem_cons_self x xs
    · exact List.mem_cons_of_mem x h2

theorem le_listMax {l : List ℚ} {a : ℚ} (ha : a ∈ l) : a ≤ listMax l := by
  cases l with
  | nil => cases ha
  | cons x xs =>
    rcases List.mem_cons.mp ha with rfl | ha2
    · exact (le_foldl_max xs a).1
    · exact (le_foldl_max xs x).2 a ha2

theorem listMax_mem {l : List ℚ} (h : l ≠ []) : listMax l ∈ l := by
  cases l with
  | nil => exact absurd rfl h
  | cons x xs =>
    rcases foldl_max_mem xs x with h2 | h2
    · rw [listMax, h2]
      exact List.mem_cons_self x xs
    · exact List.mem_cons_of_mem x h2

theorem insertionSort_eq_of_sorted {l s : List ℚ}
    (hperm : s.Perm l) (hsort : s.Sorted (fun a b : ℚ => a ≤ b)) :
    s = List.insertionSort (fun a b : ℚ => a ≤ b) l :=
  List.eq_of_perm_of_sorted (hperm.trans (List.perm_insertionSort _ l).symm)
    hsort (List.sorted_insertionSort _ l)

theorem medianRat_perm {l1 l2 : List ℚ} (h : l1.Perm l2) :
    medianRat l1 = medianRat l2 := by
  unfold medianRat
  have hs : List.insertionSort (fun a b : ℚ => a ≤ b) l1 =
      List.insertionSort (fun a b : ℚ => a ≤ b) l2 :=
    insertionSort_eq_of_sorted ((List.perm_insertionSort _ l1).trans h)
      (List.sorted_insertionSort _ l1)
  rw [hs]

theorem mem_sortDedupStr {l : List String} {a : String} :
    a ∈ sortDedupStr l ↔ a ∈ l := by
  unfold sortDedupStr
  rw [List.mem_insertionSort _, List.mem_dedup]

theorem sortDedupStr_nodup (l : List String) : (sortDedupStr l).Nodup :=
  ((List.perm_insertionSort _ l.dedup).nodup_iff).mpr (List.nodup_dedup l)

theorem sortDedupStr_sorted (l : List String) :
    (sortDedupStr l).Sorted (fun a b : String => a ≤ b) :=
  List.sorted_insertionSort _ l.dedup

/-! ### Unfolding lemmas for the search pipeline -/

theorem searchRentals_some {env : Env} {st : Snapshot}
    {state district houseType : String} {resp : SearchResponse}
    (h : searchRentals env st state district houseType = some resp) :
    resp = buildResponse env st state district houseType ∧
    filterResults st state district houseType ≠ [] := by
  unfold searchRentals at h
  by_cases he : (filterResults st state district houseType).isEmpty = true
  · rw [if_pos he] at h
    cases h
  · rw [if_neg he] at h
    exact ⟨(Option.some.inj h).symm, by simpa [List.isEmpty_iff] using he⟩

theorem searchRentals_of_ne {env : Env} {st : Snapshot}
    {state district houseType : String}
    (h : filterResults st state district houseType ≠ []) :
    searchRentals env st state district houseType =
      some (buildResponse env st state district houseType) := by
  unfold searchRentals
  rw [if_neg (by simpa [List.isEmpty_iff] using h)]

/-! ### Lemmas about the comparison list -/

theorem map_filterMap_sublist {α β : Type} (f : α → Option β) (g : β → α)
    (l : List α) (hf : ∀ a b, f a = some b → g b = a) :
    ((l.filterMap f).map g).Sublist l := by
  induction l with
  | nil => simp
  | cons a l ih =>
    cases hfa : f a with
    | none =>
      rw [List.filterMap_cons, hfa]
      exact (ih).cons a
    | some b =>
      rw [List.filterMap_cons, hfa, List.map_cons, hf a b hfa]
      exact (ih).cons₂ a

theorem mem_comparisonList_iff {records : List Listing}
    {state district houseType : String} {mr : ℤ} {e : CompEntry} :
    e ∈ comparisonList records state district houseType mr ↔
      (e.type ≠ houseType ∧
       (∃ r ∈ districtFilter records state district, r.standardType = e.type) ∧
       e.medianRent = typeMedian (districtFilter records state district) e.type ∧
       e.diff = e.medianRent - mr) := by
  unfold comparisonList
  rw [List.mem_insertionSort _, List.mem_filterMap]
  constructor
  · rintro ⟨t, ht, hf⟩
    by_cases hth : (t == houseType) = true
    · rw [if_pos hth] at hf
      cases hf
    · rw [if_neg hth] at hf
      have hne : t ≠ houseType := by simpa using hth
      have he := Option.some.inj hf
      subst he
      obtain ⟨r, hr, hrt⟩ := List.mem_map.mp (mem_sortDedupStr.mp ht)
      exact ⟨hne, ⟨r, hr, hrt⟩, rfl, rfl⟩
  · rintro ⟨hne, ⟨r, hr, hrt⟩, hmed, hdiff⟩
    refine ⟨e.type, mem_sortDedupStr.mpr (List.mem_map.mpr ⟨r, hr, hrt⟩), ?_⟩
    rw [if_neg (by simpa using hne)]
    cases e with
    | mk ty mr2 df =>
      simp only at hmed hdiff
      simp [CompEntry.mk.injEq, hmed, hdiff]

theorem comparisonList_sorted (records : List Listing)
    (state district houseType : String) (mr : ℤ) :
    (comparisonList records state district houseType mr).Sorted
      (fun a b : CompEntry => a.medianRent ≤ b.medianRent) := by
  unfold comparisonList
  exact List.sorted_insertionSort _ _

theorem comparisonList_types_nodup (records : List Listing)
    (state district houseType : String) (mr : ℤ) :
    ((comparisonList records state district houseType mr).map (·.type)).Nodup := by
  unfold comparisonList
  have hsub : ∀ (dd : List Listing) (types : List String),
      ((types.filterMap (fun t => if t == houseType then none
        else some { type := t, medianRent := typeMedian dd t,
                    diff := typeMedian dd t - mr })).map
        (fun e : CompEntry => e.type)).Sublist types := by
    intro dd types
    apply map_filterMap_sublist
    intro a b hf
    by_cases h : (a == houseType) = true
    · rw [if_pos h] at hf
      cases hf
    · rw [if_neg h] at hf
      rw [← Option.some.inj hf]
  have hperm := (List.perm_insertionSort
    (fun a b : CompEntry => a.medianRent ≤ b.medianRent)
    ((sortDedupStr ((districtFilter records state district).map (·.standardType))).filterMap
      (fun t => if t == houseType then none
        else some { type := t,
                    medianRent := typeMedian (districtFilter records state district) t,
                    diff := typeMedian (districtFilter records state district) t - mr }))).map
    (fun e : CompEntry => e.type)
  refine (hperm.nodup_iff).mpr ?_
  exact (hsub (districtFilter records state district)
    (sortDedupStr ((districtFilter records state district).map (·.standardType)))).nodup
    (sortDedupStr_nodup _)

/-! ### Claim theorems -/

/-- Claim C8: for every query whose exact-match filter over the snapshot
yields zero records, Search returns the not-found outcome and builds no
response (so none of the downstream statistics, comparison, trend,
distribution or map values exist); conversely, a not-found outcome only
arises from an empty filter. -/
theorem C8_notFound_iff_empty (env : Env) (st : Snapshot)
    (state district houseType : String) :
    searchRentals env st state district houseType = none ↔
      filterResults st state district houseType = [] := by
  constructor
  · intro h
    by_contra hne
    rw [searchRentals_of_ne hne] at h
    cases h
  · intro h
    unfold searchRentals
    rw [if_pos (by simp [h])]

/-- Claim C9: Search leaves the dataset snapshot - the records, the
property-type catalog and the location tree - unchanged: threading the
process-wide state explicitly, the state after any search equals the state
before it, and the response is a pure function of that state. -/
theorem C9_snapshot_unchanged (env : Env) (st : Snapshot)
    (state district houseType : String) :
    (searchStateful env st state district houseType).1 = st ∧
    (searchStateful env st state district houseType).1.records = st.records ∧
    (searchStateful env st state district houseType).1.allPropertyTypes =
      st.allPropertyTypes ∧
    (searchStateful env st state district houseType).1.locationTree =
      st.locationTree ∧
    (searchStateful env st state district houseType).2 =
      searchRentals env st state district houseType :=
  ⟨rfl, rfl, rfl, rfl, rfl⟩

/-- Claim C2, evaluated where the code diverges from it: a raw row whose
State cell is missing is not excluded - `astype(str)` stringifies the
missing value to "nan" before `dropna` runs, so the cleaned snapshot keeps
the row with state "nan"; a whitespace-only State is kept as the empty
string; and such a row is matched by the query ("nan", "A", "Condo"). -/
theorem C2_missing_state_retained :
    ((loadData colsNone
        [rawL none (some "A") (some "Condo") (some 1000) none none]).records.map
      (fun r => r.state) = ["nan"]) ∧
    ((loadData colsNone
        [rawL (some "  ") (some "A") (some "Condo") (some 1000) none none]).records.map
      (fun r => r.state) = [""]) ∧
    (filterResults
      (loadData colsNone [rawL none (some "A") (some "Condo") (some 1000) none none])
      "nan" "A" "Condo").length = 1 :=
  ⟨rfl, rfl, rfl⟩

/-- Claim C3, evaluated where the code diverges from it: with a single
filtered record priced exactly 500, the bin edges are 0 and 500 only
(`range` excludes its stop), the price 500 falls in no half-open bin, and
the emitted distribution is empty even though the filtered set holds one
non-missing price - the bin counts sum to 0, not 1. -/
theorem C3_top_edge_excluded :
    (searchRentals envTake snapBin "KL" "A" "Condo").map
      (fun r => r.distribution) = some [] ∧
    (searchRentals envTake snapBin "KL" "A" "Condo").map
      (fun r => r.count) = some 1 ∧
    distributionOf [500] = [] ∧
    binStarts (pyInt (listMax [500]) + 500) = [0, 500] :=
  ⟨rfl, rfl, rfl, rfl⟩

/-- Claim C1: for a non-empty filtered set, `medianRent` is the statistical
median of `rentPrice` over the filtered records truncated to an integer -
the middle element of any sorted arrangement for an odd count, the
truncated (not rounded) average of the two central elements for an even
count - and it is invariant under any reordering of the snapshot records
(hence of the filtered records). -/
theorem C1_medianRent_median (env : Env) (st : Snapshot)
    (state district houseType : String) (resp : SearchResponse)
    (h : searchRentals env st state district houseType = some resp)
    (s : List ℚ)
    (hperm : s.Perm ((filterResults st state district houseType).map (·.rentPrice)))
    (hsort : s.Sorted (fun a b : ℚ => a ≤ b)) :
    (s.length % 2 = 1 → resp.medianRent = pyInt (s.getD (s.length / 2) 0)) ∧
    (s.length % 2 = 0 →
      resp.medianRent =
        pyInt ((s.getD (s.length / 2 - 1) 0 + s.getD (s.length / 2) 0) / 2)) ∧
    (∀ (st2 : Snapshot) (resp2 : SearchResponse), st2.records.Perm st.records →
      searchRentals env st2 state district houseType = some resp2 →
      resp2.medianRent = resp.medianRent) := by
  obtain ⟨hre, -⟩ := searchRentals_some h
  subst hre
  have hmr : (buildResponse env st state district houseType).medianRent =
      pyInt (medianRat ((filterResults st state district houseType).map (·.rentPrice))) :=
    rfl
  have hs_eq : s = List.insertionSort (fun a b : ℚ => a ≤ b)
      ((filterResults st state district houseType).map (·.rentPrice)) :=
    insertionSort_eq_of_sorted hperm hsort
  refine ⟨?_, ?_, ?_⟩
  · intro hodd
    rw [hmr]
    simp only [medianRat]
    rw [← hs_eq, if_pos hodd]
  · intro heven
    rw [hmr]
    simp only [medianRat]
    rw [← hs_eq, if_neg (by omega)]
  · intro st2 resp2 hp2 h2
    obtain ⟨hre2, -⟩ := searchRentals_some h2
    subst hre2
    have hmr2 : (buildResponse env st2 state district houseType).medianRent =
        pyInt (medianRat ((filterResults st2 state district houseType).map (·.rentPrice))) :=
      rfl
    have hp3 : ((filterResults st2 state district houseType).map
        (fun r : Listing => r.rentPrice)).Perm
        ((filterResults st state district houseType).map
        (fun r : Listing => r.rentPrice)) := by
      unfold filterResults
      exact (hp2.filter _).map _
    rw [hmr, hmr2]
    exact congrArg pyInt (medianRat_perm hp3)

/-- Witness for C1: on the specification's own scenario (condos at 1500
and 1700 in (KL, Ampang)), the theorem yields `medianRent = 1600`, the
truncated average of the two central values. -/
theorem C1_medianRent_median_witness :
    (searchRentals envTake snapKL "KL" "Ampang" "Condo").map
      (fun r => r.medianRent) = some 1600 := by
  cases hr : searchRentals envTake snapKL "KL" "Ampang" "Condo" with
  | none => exact absurd hr (by decide)
  | some resp =>
    have hthm := C1_medianRent_median envTake snapKL "KL" "Ampang" "Condo" resp hr
      [1500, 1700] (by decide) (by decide)
    have h2 := hthm.2.1 (by decide)
    have h3 : resp.medianRent = 1600 := by rw [h2]; norm_num [pyInt]
    simp [h3]

/-- Claim C5: the number of emitted map points equals the minimum of the
size of the coordinate-bearing subset and 2000, for any sampler obeying
the `DataFrame.sample(n)` contract of returning exactly `n` rows whenever
`n` does not exceed the frame's size. -/
theorem C5_points_length (env : Env) (st : Snapshot)
    (state district houseType : String) (resp : SearchResponse)
    (hs : ∀ (xs : List Listing) (n : Nat), n ≤ xs.length → (env.sample xs n).length = n)
    (h : searchRentals env st state district houseType = some resp) :
    resp.points.length =
      min (mapResultsOf (filterResults st state district houseType)).length 2000 := by
  obtain ⟨hre, -⟩ := searchRentals_some h
  subst hre
  have hp : (buildResponse env st state district houseType).points =
      (if (mapResultsOf (filterResults st state district houseType)).isEmpty then []
       else (samplePoints env.sample
          (mapResultsOf (filterResults st state district houseType))).map
         (fun r => (r.latitude.getD 0, r.longitude.getD 0, r.rentPrice))) := rfl
  rw [hp]
  by_cases hm : (mapResultsOf (filterResults st state district houseType)).isEmpty = true
  · rw [if_pos hm]
    have hnil : mapResultsOf (filterResults st state district houseType) = [] :=
      List.isEmpty_iff.mp hm
    simp [hnil]
  · rw [if_neg hm, List.length_map]
    unfold samplePoints
    by_cases h2 : 2000 < (mapResultsOf (filterResults st state district houseType)).length
    · rw [if_pos h2, hs _ 2000 (le_of_lt h2)]
      exact (min_eq_right (le_of_lt h2)).symm
    · rw [if_neg h2]
      exact (min_eq_left (Nat.not_lt.mp h2)).symm

/-- Witness for C5: on a snapshot with three geocoded matching records and
one without coordinates, exactly three points are emitted. -/
theorem C5_points_length_witness :
    (searchRentals envTake snapGeo "KL" "Ampang" "Condo").map
      (fun r => r.points.length) = some 3 := by
  cases hr : searchRentals envTake snapGeo "KL" "Ampang" "Condo" with
  | none => exact absurd hr (by decide)
  | some resp =>
    have h := C5_points_length envTake snapGeo "KL" "Ampang" "Condo" resp
      (fun xs n hn => by simpa [envTake, List.length_take] using Nat.min_eq_left hn) hr
    have h2 : resp.points.length = 3 := by rw [h]; decide
    simp [h2]

/-- Claim C6 (amended): when the coordinate-bearing subset is non-empty,
`mapMin` and `mapMax` are the truncations toward zero of the minimum and
maximum of `rentPrice` over that whole subset, computed before any
subsampling; and whenever every price in that subset is an integer, every
emitted point's price lies between `mapMin` and `mapMax`.  (As stated the
bound fails for fractional prices; see the counterexample.) -/
theorem C6_map_range (env : Env) (st : Snapshot)
    (state district houseType : String) (resp : SearchResponse)
    (hsmem : ∀ (xs : List Listing) (n : Nat) (x : Listing), x ∈ env.sample xs n → x ∈ xs)
    (h : searchRentals env st state district houseType = some resp)
    (hne : mapResultsOf (filterResults st state district houseType) ≠ []) :
    resp.mapMin = pyInt (listMin
      ((mapResultsOf (filterResults st state district houseType)).map (·.rentPrice))) ∧
    resp.mapMax = pyInt (listMax
      ((mapResultsOf (filterResults st state district houseType)).map (·.rentPrice))) ∧
    ((∀ r ∈ mapResultsOf (filterResults st state district houseType),
        ∃ k : ℤ, r.rentPrice = (k : ℚ)) →
      ∀ p ∈ resp.points,
        ((resp.mapMin : ℚ) ≤ p.2.2 ∧ p.2.2 ≤ (resp.mapMax : ℚ))) := by
  obtain ⟨hre, -⟩ := searchRentals_some h
  subst hre
  have hm : (mapResultsOf (filterResults st state district houseType)).isEmpty = false := by
    rcases hE : (mapResultsOf (filterResults st state district houseType)).isEmpty with _ | _
    · rfl
    · exact absurd (List.isEmpty_iff.mp hE) hne
  have h1 : (buildResponse env st state district houseType).mapMin =
      (if (mapResultsOf (filterResults st state district houseType)).isEmpty then 0
       else pyInt (listMin
        ((mapResultsOf (filterResults st state district houseType)).map (·.rentPrice)))) :=
    rfl
  have h2 : (buildResponse env st state district houseType).mapMax =
      (if (mapResultsOf (filterResults st state district houseType)).isEmpty then 0
       else pyInt (listMax
        ((mapResultsOf (filterResults st state district houseType)).map (·.rentPrice)))) :=
    rfl
  have h3 : (buildResponse env st state district houseType).points =
      (if (mapResultsOf (filterResults st state district houseType)).isEmpty then []
       else (samplePoints env.sample
          (mapResultsOf (filterResults st state district houseType))).map
         (fun r => (r.latitude.getD 0, r.longitude.getD 0, r.rentPrice))) :=
    rfl
  rw [h1, h2, h3, hm]
  simp only [Bool.false_eq_true, if_false]
  refine ⟨trivial, trivial, ?_⟩
  intro hint p hp
  obtain ⟨r, hr, hpr⟩ := List.mem_map.mp hp
  have hrm : r ∈ mapResultsOf (filterResults st state district houseType) := by
    revert hr
    unfold samplePoints
    by_cases hlen : 2000 < (mapResultsOf (filterResults st state district houseType)).length
    · rw [if_pos hlen]
      exact fun hr => hsmem _ 2000 r hr
    · rw [if_neg hlen]
      exact fun hr => hr
  have hprice : p.2.2 = r.rentPrice := by rw [← hpr]
  have hmem : r.rentPrice ∈
      (mapResultsOf (filterResults st state district houseType)).map (·.rentPrice) :=
    List.mem_map.mpr ⟨r, hrm, rfl⟩
  have hmapne : ((mapResultsOf (filterResults st state district houseType)).map
      (·.rentPrice)) ≠ [] := by
    intro hc
    exact hne (List.map_eq_nil_iff.mp hc)
  constructor
  · obtain ⟨r0, hr0, hr0min⟩ := List.mem_map.mp (listMin_mem hmapne)
    obtain ⟨k, hk⟩ := hint r0 hr0
    have hkmin : listMin ((mapResultsOf (filterResults st state district houseType)).map
        (·.rentPrice)) = (k : ℚ) := by rw [← hr0min, hk]
    rw [hkmin, pyInt_intCast, hprice, ← hkmin]
    exact listMin_le hmem
  · obtain ⟨r0, hr0, hr0max⟩ := List.mem_map.mp (listMax_mem hmapne)
    obtain ⟨k, hk⟩ := hint r0 hr0
    have hkmax : listMax ((mapResultsOf (filterResults st state district houseType)).map
        (·.rentPrice)) = (k : ℚ) := by rw [← hr0max, hk]
    rw [hkmax, pyInt_intCast, hprice, ← hkmax]
    exact le_listMax hmem

/-- Claim C6 counterexample: with a single geocoded listing priced 5/2,
`mapMax` truncates to 2 while the emitted point carries the price
5/2 > 2, so the bound mapMin ≤ price ≤ mapMax of the claim fails as
stated. -/
theorem C6_map_range_counterexample :
    (searchRentals envTake snapFrac "KL" "A" "Condo").map (fun r => r.mapMax) = some 2 ∧
    (searchRentals envTake snapFrac "KL" "A" "Condo").map (fun r => r.points) =
      some [(3, 101, q52)] ∧
    q52 = 5 / 2 ∧
    ¬ (q52 ≤ ((2 : ℤ) : ℚ)) := by
  refine ⟨rfl, rfl, ?_, by decide⟩
  unfold q52
  rw [Rat.mk'_eq_divInt]
  norm_num [Rat.divInt_eq_div]

/-- Witness for C6 (amended): a single geocoded record at the integer
price 1500 gives mapMin = mapMax = 1500 and a point price within the
bounds. -/
theorem C6_map_range_witness :
    (searchRentals envTake snapGeoOne "KL" "Ampang" "Condo").map
      (fun r => r.mapMin) = some 1500 ∧
    (searchRentals envTake snapGeoOne "KL" "Ampang" "Condo").map
      (fun r => r.mapMax) = some 1500 := by
  cases hr : searchRentals envTake snapGeoOne "KL" "Ampang" "Condo" with
  | none => exact absurd hr (by decide)
  | some resp =>
    have h := C6_map_range envTake snapGeoOne "KL" "Ampang" "Condo" resp
      (fun xs n x hx => List.take_subset n xs hx) hr (by decide)
    have ha : resp.mapMin = 1500 := by rw [h.1]; decide
    have hb : resp.mapMax = 1500 := by rw [h.2.1]; decide
    simp [ha, hb]

/-- Claim C4: the comparison list has exactly one entry per property type
observed in the queried (state, district) other than the queried type -
membership characterisation plus distinctness of the emitted types - each
entry's medianRent being that type's truncated district median and its
diff that median minus the queried medianRent; the list is sorted
ascending by medianRent and never contains the queried type. -/
theorem C4_comparison_shape (env : Env) (st : Snapshot)
    (state district houseType : String) (resp : SearchResponse)
    (h : searchRentals env st state district houseType = some resp) :
    (∀ e ∈ resp.comparison, e.type ≠ houseType) ∧
    resp.comparison.Sorted (fun a b : CompEntry => a.medianRent ≤ b.medianRent) ∧
    (resp.comparison.map (fun e => e.type)).Nodup ∧
    (∀ t : String, (∃ e ∈ resp.comparison, e.type = t) ↔
      (t ≠ houseType ∧
       ∃ r ∈ st.records, r.state = state ∧ r.district = district ∧ r.standardType = t)) ∧
    (∀ e ∈ resp.comparison,
      e.medianRent = typeMedian (districtFilter st.records state district) e.type ∧
      e.diff = e.medianRent - resp.medianRent) := by
  obtain ⟨hre, -⟩ := searchRentals_some h
  subst hre
  have hcomp : (buildResponse env st state district houseType).comparison =
      comparisonList st.records state district houseType
        (medianRentOf (filterResults st state district houseType)) := rfl
  have hmr : (buildResponse env st state district houseType).medianRent =
      medianRentOf (filterResults st state district houseType) := rfl
  rw [hcomp, hmr]
  have hobs : ∀ t : String,
      (∃ r ∈ districtFilter st.records state district, r.standardType = t) ↔
      (∃ r ∈ st.records, r.state = state ∧ r.district = district ∧ r.standardType = t) := by
    intro t
    unfold districtFilter
    constructor
    · rintro ⟨r, hr, ht⟩
      obtain ⟨hmem, hcond⟩ := List.mem_filter.mp hr
      have hsd : r.state = state ∧ r.district = district := by
        simpa using hcond
      exact ⟨r, hmem, hsd.1, hsd.2, ht⟩
    · rintro ⟨r, hr, hs, hd, ht⟩
      exact ⟨r, List.mem_filter.mpr ⟨hr, by simp [hs, hd]⟩, ht⟩
  refine ⟨?_, comparisonList_sorted st.records state district houseType _,
      comparisonList_types_nodup st.records state district houseType _, ?_, ?_⟩
  · intro e he
    exact (mem_comparisonList_iff.mp he).1
  · intro t
    constructor
    · rintro ⟨e, he, rfl⟩
      obtain ⟨h1, h2, -, -⟩ := mem_comparisonList_iff.mp he
      exact ⟨h1, (hobs e.type).mp h2⟩
    · rintro ⟨hne, hex⟩
      refine ⟨{ type := t,
                medianRent := typeMedian (districtFilter st.records state district) t,
                diff := typeMedian (districtFilter st.records state district) t -
                  medianRentOf (filterResults st state district houseType) }, ?_, rfl⟩
      exact mem_comparisonList_iff.mpr ⟨hne, (hobs t).mpr hex, rfl, rfl⟩
  · intro e he
    obtain ⟨-, -, h3, h4⟩ := mem_comparisonList_iff.mp he
    exact ⟨h3, h4⟩

/-- Witness for C4: in the specification's scenario the queried type Condo
has the single other observed type Studio in (KL, Ampang), so the
comparison list contains an entry for Studio. -/
theorem C4_comparison_shape_witness :
    ∃ e ∈ (searchRentals envTake snapKL "KL" "Ampang" "Condo").elim []
      (fun r => r.comparison), e.type = "Studio" := by
  cases hr : searchRentals envTake snapKL "KL" "Ampang" "Condo" with
  | none => exact absurd hr (by decide)
  | some resp =>
    have h4 := (C4_comparison_shape envTake snapKL "KL" "Ampang" "Condo" resp hr).2.2.2.1
      "Studio"
    obtain ⟨e, he, het⟩ := h4.mpr ⟨by decide, by decide⟩
    exact ⟨e, he, het⟩

/-! ### Lemmas about the location tree -/

theorem mem_treeTypes_iff {records : List Listing} {S D T : String} :
    T ∈ treeTypes records S D ↔
      ∃ r ∈ records, r.state = S ∧ r.district = D ∧ r.standardType = T := by
  unfold treeTypes
  rw [mem_sortDedupStr, List.mem_map]
  constructor
  · rintro ⟨r, hr, ht⟩
    obtain ⟨hmem, hcond⟩ := List.mem_filter.mp hr
    have hsd : r.state = S ∧ r.district = D := by simpa using hcond
    exact ⟨r, hmem, hsd.1, hsd.2, ht⟩
  · rintro ⟨r, hr, hs, hd, ht⟩
    exact ⟨r, List.mem_filter.mpr ⟨hr, by simp [hs, hd]⟩, ht⟩

theorem locationTreeOf_key_iff {records : List Listing} {S D : String} :
    (∃ e ∈ locationTreeOf records, e.1 = S ∧ e.2.1 = D) ↔
      ∃ r ∈ records, r.state = S ∧ r.district = D := by
  unfold locationTreeOf
  constructor
  · rintro ⟨e, he, hS, hD⟩
    obtain ⟨p, hp, hpe⟩ := List.mem_map.mp he
    obtain ⟨r, hr, hpr⟩ := List.mem_map.mp (List.mem_dedup.mp hp)
    refine ⟨r, hr, ?_, ?_⟩
    · have h1 : p.1 = e.1 := by rw [← hpe]
      have h2 : r.state = p.1 := by rw [← hpr]
      rw [h2, h1, hS]
    · have h1 : p.2 = e.2.1 := by rw [← hpe]
      have h2 : r.district = p.2 := by rw [← hpr]
      rw [h2, h1, hD]
  · rintro ⟨r, hr, hs, hd⟩
    refine ⟨(S, D, treeTypes records S D), ?_, rfl, rfl⟩
    exact List.mem_map.mpr ⟨(S, D),
      List.mem_dedup.mpr (List.mem_map.mpr ⟨r, hr, by rw [hs, hd]⟩), rfl⟩

theorem locationTreeOf_entry_types {records : List Listing}
    {e : String × String × List String} (he : e ∈ locationTreeOf records) :
    e.2.2 = treeTypes records e.1 e.2.1 := by
  unfold locationTreeOf at he
  obtain ⟨p, hp, hpe⟩ := List.mem_map.mp he
  rw [← hpe]

/-- Claim C7: the location tree returned by GetFormOptions has an entry
for (S, D) containing T exactly when some cleaned record carries these
three values; each entry's value is the sorted distinct list of the types
observed for its own (state, district) pair, and a pair carried by no
record has no entry. -/
theorem C7_locationTree_roundtrip (cols : ColumnFlags) (raw : List RawRecord)
    (S D T : String) :
    ((∃ e ∈ (getFormOptions (loadData cols raw)).2,
        e.1 = S ∧ e.2.1 = D ∧ T ∈ e.2.2) ↔
      ∃ r ∈ (loadData cols raw).records,
        r.state = S ∧ r.district = D ∧ r.standardType = T) ∧
    (∀ e ∈ (getFormOptions (loadData cols raw)).2,
      e.2.2.Sorted (fun a b : String => a ≤ b) ∧ e.2.2.Nodup ∧
      (∀ T2 : String, T2 ∈ e.2.2 ↔
        ∃ r ∈ (loadData cols raw).records,
          r.state = e.1 ∧ r.district = e.2.1 ∧ r.standardType = T2)) ∧
    ((∃ e ∈ (getFormOptions (loadData cols raw)).2, e.1 = S ∧ e.2.1 = D) ↔
      ∃ r ∈ (loadData cols raw).records, r.state = S ∧ r.district = D) := by
  have hTree : (getFormOptions (loadData cols raw)).2 =
      locationTreeOf (cleanRecords raw) := rfl
  have hRecs : (loadData cols raw).records = cleanRecords raw := rfl
  rw [hTree, hRecs]
  refine ⟨?_, ?_, locationTreeOf_key_iff⟩
  · constructor
    · rintro ⟨e, he, hS, hD, hT⟩
      have ht := locationTreeOf_entry_types he
      rw [ht, hS, hD] at hT
      exact mem_treeTypes_iff.mp hT
    · rintro ⟨r, hr, hs, hd, hty⟩
      obtain ⟨e, he, hS, hD⟩ := locationTreeOf_key_iff.mpr ⟨r, hr, hs, hd⟩
      refine ⟨e, he, hS, hD, ?_⟩
      rw [locationTreeOf_entry_types he, hS, hD]
      exact mem_treeTypes_iff.mpr ⟨r, hr, hs, hd, hty⟩
  · intro e he
    have ht := locationTreeOf_entry_types he
    refine ⟨?_, ?_, ?_⟩
    · rw [ht]
      unfold treeTypes
      exact sortDedupStr_sorted _
    · rw [ht]
      unfold treeTypes
      exact sortDedupStr_nodup _
    · intro T2
      rw [ht]
      exact mem_treeTypes_iff

/-- Witness for C7: on the three-row scenario the tree has an entry
(KL, Ampang) whose types contain Condo. -/
theorem C7_locationTree_roundtrip_witness :
    ∃ e ∈ (getFormOptions (loadData colsNone
      [rawL (some "KL") (some "Ampang") (some "Condo") (some 1500) none none,
       rawL (some "KL") (some "Ampang") (some "Condo") (some 1700) none none,
       rawL (some "KL") (some "Ampang") (some "Studio") (some 1200) none none])).2,
      e.1 = "KL" ∧ e.2.1 = "Ampang" ∧ "Condo" ∈ e.2.2 :=
  (C7_locationTree_roundtrip colsNone
      [rawL (some "KL") (some "Ampang") (some "Condo") (some 1500) none none,
       rawL (some "KL") (some "Ampang") (some "Condo") (some 1700) none none,
       rawL (some "KL") (some "Ampang") (some "Studio") (some 1200) none none]
      "KL" "Ampang" "Condo").1.mpr (by decide)

/-- Claim C10: with the snapshot and the query fixed, two searches that
differ only in the sampler (the one source of randomness) agree on every
response field except possibly points, and agree on points as well - hence
on the whole response - whenever the coordinate-bearing subset has at most
2000 records. -/
theorem C10_deterministic_except_points (pd : String → Option String)
    (s1 s2 : List Listing → Nat → List Listing) (st : Snapshot)
    (state district houseType : String) :
    ((searchRentals ⟨pd, s1⟩ st state district houseType).map (fun r => r.location) =
      (searchRentals ⟨pd, s2⟩ st state district houseType).map (fun r => r.location)) ∧
    ((searchRentals ⟨pd, s1⟩ st state district houseType).map (fun r => r.medianRent) =
      (searchRentals ⟨pd, s2⟩ st state district houseType).map (fun r => r.medianRent)) ∧
    ((searchRentals ⟨pd, s1⟩ st state district houseType).map (fun r => r.suitableIncome) =
      (searchRentals ⟨pd, s2⟩ st state district houseType).map (fun r => r.suitableIncome)) ∧
    ((searchRentals ⟨pd, s1⟩ st state district houseType).map (fun r => r.coordinates) =
      (searchRentals ⟨pd, s2⟩ st state district houseType).map (fun r => r.coordinates)) ∧
    ((searchRentals ⟨pd, s1⟩ st state district houseType).map (fun r => r.mapMin) =
      (searchRentals ⟨pd, s2⟩ st state district houseType).map (fun r => r.mapMin)) ∧
    ((searchRentals ⟨pd, s1⟩ st state district houseType).map (fun r => r.mapMax) =
      (searchRentals ⟨pd, s2⟩ st state district houseType).map (fun r => r.mapMax)) ∧
    ((searchRentals ⟨pd, s1⟩ st state district houseType).map (fun r => r.commonFeatures) =
      (searchRentals ⟨pd, s2⟩ st state district houseType).map (fun r => r.commonFeatures)) ∧
    ((searchRentals ⟨pd, s1⟩ st state district houseType).map (fun r => r.count) =
      (searchRentals ⟨pd, s2⟩ st state district houseType).map (fun r => r.count)) ∧
    ((searchRentals ⟨pd, s1⟩ st state district houseType).map (fun r => r.comparison) =
      (searchRentals ⟨pd, s2⟩ st state district houseType).map (fun r => r.comparison)) ∧
    ((searchRentals ⟨pd, s1⟩ st state district houseType).map (fun r => r.trends) =
      (searchRentals ⟨pd, s2⟩ st state district houseType).map (fun r => r.trends)) ∧
    ((searchRentals ⟨pd, s1⟩ st state district houseType).map (fun r => r.distribution) =
      (searchRentals ⟨pd, s2⟩ st state district houseType).map (fun r => r.distribution)) ∧
    ((mapResultsOf (filterResults st state district houseType)).length ≤ 2000 →
      searchRentals ⟨pd, s1⟩ st state district houseType =
        searchRentals ⟨pd, s2⟩ st state district houseType) := by
  by_cases he : (filterResults st state district houseType).isEmpty = true
  · unfold searchRentals
    rw [if_pos he, if_pos he]
    exact ⟨rfl, rfl, rfl, rfl, rfl, rfl, rfl, rfl, rfl, rfl, rfl, fun _ => rfl⟩
  · have hne : filterResults st state district houseType ≠ [] := by
      simpa [List.isEmpty_iff] using he
    rw [searchRentals_of_ne hne, searchRentals_of_ne hne]
    refine ⟨rfl, rfl, rfl, rfl, rfl, rfl, rfl, rfl, rfl, rfl, rfl, ?_⟩
    intro hlen
    have hsp : samplePoints (Env.mk pd s1).sample
        (mapResultsOf (filterResults st state district houseType)) =
        samplePoints (Env.mk pd s2).sample
        (mapResultsOf (filterResults st state district houseType)) := by
      unfold samplePoints
      rw [if_neg (by omega), if_neg (by omega)]
    simp only [buildResponse]
    rw [hsp]

/-- Witness for C10: on a snapshot whose coordinate-bearing subset has 3
records (at most 2000), two searches with different samplers return the
same full response. -/
theorem C10_deterministic_except_points_witness :
    searchRentals envTake snapGeo "KL" "Ampang" "Condo" =
      searchRentals envRev snapGeo "KL" "Ampang" "Condo" :=
  (C10_deterministic_except_points (fun _ => none) (fun xs n => xs.take n)
    (fun xs n => xs.reverse.take n) snapGeo "KL" "Ampang"
    "Condo").2.2.2.2.2.2.2.2.2.2.2 (by decide)
